import Mathlib

/-!
Verification development for the grab-n-go order-ahead platform.

The definitions below are a shallow embedding of the realtime order and
catalog synchronization code:

* the POST /api/orders handler of src/backend/server.js (order creation
  inside a database transaction, followed by a socket notification),
* the socket connection room assignment of src/backend/server.js and of
  the older server variant in src/unnamed/part_004,
* the PUT /api/admin/orders/:id/status handler of src/unnamed/part_004
  (status and payment-status update followed by notifications),
* the POST /api/menu handler of src/backend/server.js,
* the client-side reconcilers of src/frontend/src/components/Orders.js,
  Menu.js and AdminDashboard.js.

JavaScript numbers are modelled as rationals (Rat); Number.isInteger
becomes a check that the denominator is one.  Database failures are
modelled by an explicit failure schedule: each fallible step of a handler
carries a Boolean saying whether the underlying store or socket layer
fails at that step.  A transaction is modelled by the fact that the
database value returned on any rollback path is the input database.
-/

namespace GrabNGo

/-- JavaScript Number.isInteger on the rational model of JS numbers. -/
def numberIsInteger (q : Rat) : Bool := q.den == 1

/-- One element of the items array of a create-order request body:
an (item id, quantity, price) tuple, each a JS number. -/
structure OrderItemReq where
  item_id : Rat
  quantity : Rat
  price : Rat
deriving Repr, DecidableEq

/-- Result of new Date(scheduled_at) in the create-order handler:
the field can be absent, present but unparseable (isNaN getTime), or a
parsed instant in epoch milliseconds. -/
inductive JsDate where
  | absent
  | unparseable
  | parsed (ms : Int)
deriving Repr, DecidableEq

/-- The request body of POST /api/orders.  The total field models a
client-supplied total: the handler destructures only items,
payment_method, special_instructions, order_type and scheduled_at, so a
total field in the body is never read. -/
structure CreateOrderReq where
  items : List OrderItemReq
  payment_method : Option String
  special_instructions : Option String
  order_type : Option String
  scheduled_at : JsDate
  total : Option Rat
deriving Repr, DecidableEq

/-- finalOrderType: order_type === "scheduled" ? "scheduled" : "asap". -/
def finalOrderType (req : CreateOrderReq) : String :=
  if req.order_type = some "scheduled" then "scheduled" else "asap"

/-- The per-item validation loop of the handler: for each item it
rejects when Number.isInteger(item.item_id) fails, or
Number.isInteger(item.quantity) fails, or item.price is falsy, and then
rejects when item.quantity < 1.  It does not test item_id for
positivity. -/
def validateItemsLoop : List OrderItemReq → Option String
  | [] => none
  | i :: rest =>
    if ¬ numberIsInteger i.item_id ∨ ¬ numberIsInteger i.quantity ∨ i.price = 0 then
      some "Invalid item data"
    else if i.quantity < 1 then
      some "Item quantity must be at least 1"
    else
      validateItemsLoop rest

/-- The input validation phase of POST /api/orders, in source order:
scheduling checks, non-empty items array, payment_method present and a
string, then the per-item loop.  Returns the 400 error message, or none
when validation passes. -/
def validateOrder (req : CreateOrderReq) (now : Int) : Option String :=
  let afterSchedule : Option String :=
    if req.items.length = 0 then
      some "Order must contain at least one item"
    else
      match req.payment_method with
      | none => some "Payment method is required"
      | some pm =>
        if pm = "" then some "Payment method is required"
        else validateItemsLoop req.items
  if finalOrderType req = "scheduled" then
    match req.scheduled_at with
    | JsDate.absent => some "Scheduled time is required for scheduled orders."
    | JsDate.unparseable => some "Invalid date format for scheduled time."
    | JsDate.parsed t => if t ≤ now then some "Scheduled time must be in the future." else afterSchedule
  else afterSchedule

/-- Server-side total: items.reduce((sum, item) => sum + item.price * item.quantity, 0). -/
def orderTotal (items : List OrderItemReq) : Rat :=
  items.foldl (fun s i => s + i.price * i.quantity) 0

/-- A persisted row of the orders table. -/
structure OrderRow where
  order_id : Nat
  user_id : Int
  order_number : String
  total_amount : Rat
  payment_method : String
  special_instructions : Option String
  status : String
  payment_status : String
  order_type : String
  scheduled_at : Option Int
deriving Repr, DecidableEq

/-- A persisted row of the order_items table. -/
structure OrderItemRow where
  order_id : Nat
  item_id : Rat
  quantity : Rat
  unit_price : Rat
  subtotal : Rat
deriving Repr, DecidableEq

/-- The relational store as seen by the order handlers. -/
structure Db where
  orders : List OrderRow
  order_items : List OrderItemRow
deriving Repr, DecidableEq

/-- A socket.io room as used by the server: the admins room (staff
channel), the customers room (customer broadcast), or a per-user room. -/
inductive Room where
  | admins
  | customers
  | userRoom (id : Int)
deriving Repr, DecidableEq

/-- One attempted socket emit: target room and event name. -/
structure SocketEmit where
  room : Room
  event : String
deriving Repr, DecidableEq

/-- Failure schedule for one run of the create-order transaction: each
flag says that the corresponding fallible step reports an error. -/
structure DbFailure where
  connFail : Bool
  beginFail : Bool
  insertOrderFail : Bool
  insertItemsFail : Bool
  commitFail : Bool
  emitFail : Bool
deriving Repr, DecidableEq

/-- The schedule on which every step succeeds. -/
def allOk : DbFailure := ⟨false, false, false, false, false, false⟩

/-- The empty store. -/
def emptyDb : Db := ⟨[], []⟩

/-- The HTTP outcome of POST /api/orders: a 400 validation error, a 500
database error, or the 201 success payload. -/
inductive CreateOrderResult where
  | validationError (msg : String)
  | dbError (msg : String)
  | created (orderId : Nat) (orderNumber : String) (totalAmount : Rat)
deriving Repr, DecidableEq

/-- Whether the outcome is the 201 success payload. -/
def CreateOrderResult.isCreated : CreateOrderResult → Bool
  | CreateOrderResult.created _ _ _ => true
  | _ => false

/-- Everything observable from one run of the create-order handler. -/
structure CreateOrderOut where
  result : CreateOrderResult
  db : Db
  emits : List SocketEmit
  logs : List String
deriving Repr, DecidableEq

/-- The orders row inserted by the create-order transaction: status and
payment status start as pending, the total is the server-computed one,
and the scheduled time is stored only for scheduled orders. -/
def committedOrderRow (req : CreateOrderReq) (now : Int) (userId : Int)
    (orderId : Nat) : OrderRow :=
  { order_id := orderId
    user_id := userId
    order_number := "ORD" ++ toString now
    total_amount := orderTotal req.items
    payment_method := (req.payment_method).getD ""
    special_instructions :=
      match req.special_instructions with
      | some "" => none
      | x => x
    status := "pending"
    payment_status := "pending"
    order_type := finalOrderType req
    scheduled_at :=
      if finalOrderType req = "scheduled" then
        match req.scheduled_at with
        | JsDate.parsed t => some t
        | _ => none
      else none }

/-- The order_items rows inserted for one order: one row per submitted
tuple, with subtotal computed as item.price * item.quantity. -/
def committedItemRows (items : List OrderItemReq) (orderId : Nat) : List OrderItemRow :=
  items.map (fun i => OrderItemRow.mk orderId i.item_id i.quantity i.price (i.price * i.quantity))

/-- Shallow embedding of the POST /api/orders handler of
src/backend/server.js: validation, then getConnection, beginTransaction,
the order-header insert, the line-items insert and commit, each of which
can fail; every failure after beginTransaction runs
connection.rollback, so the store is left exactly as it was.  After a
successful commit the handler attempts a single order:new emit to the
admins room inside try/catch (a throwing emit is only logged), and
responds 201 with the generated id, order number and total. -/
def createOrder (req : CreateOrderReq) (now : Int) (userId : Int)
    (f : DbFailure) (db : Db) : CreateOrderOut :=
  match validateOrder req now with
  | some msg => ⟨CreateOrderResult.validationError msg, db, [], []⟩
  | none =>
    if f.connFail then ⟨CreateOrderResult.dbError "Database connection failed", db, [], []⟩
    else if f.beginFail then ⟨CreateOrderResult.dbError "Transaction failed", db, [], []⟩
    else if f.insertOrderFail then ⟨CreateOrderResult.dbError "Failed to create order", db, [], []⟩
    else if f.insertItemsFail then ⟨CreateOrderResult.dbError "Failed to add order items", db, [], []⟩
    else if f.commitFail then ⟨CreateOrderResult.dbError "Failed to complete order", db, [], []⟩
    else
      let orderId := db.orders.length + 1
      ⟨CreateOrderResult.created orderId ("ORD" ++ toString now) (orderTotal req.items),
       ⟨db.orders ++ [committedOrderRow req now userId orderId],
        db.order_items ++ committedItemRows req.items orderId⟩,
       [⟨Room.admins, "order:new"⟩],
       if f.emitFail then ["[SOCKET] Failed to emit order:new"] else []⟩

end GrabNGo

namespace GrabNGo

/-- A valid status or payment field of the admin status-update route:
the value must be truthy and a member of the allowed set, otherwise the
field is silently dropped (mirrors status && allowedStatus.has(status)). -/
def validField (x : Option String) (allowed : List String) : Option String :=
  match x with
  | none => none
  | some s => if s ≠ "" ∧ s ∈ allowed then some s else none

/-- The allowed order statuses of the admin status-update route. -/
def allowedStatus : List String :=
  ["pending", "confirmed", "preparing", "ready", "completed", "cancelled"]

/-- The allowed payment statuses of the admin status-update route. -/
def allowedPayment : List String := ["pending", "paid", "refunded"]

/-- The row subset selected by the post-update fetch of the admin
status-update route, which is also the order:update event payload. -/
structure OrderSnapshot where
  order_id : Nat
  user_id : Int
  order_number : String
  status : String
  payment_status : String
  total_amount : Rat
deriving Repr, DecidableEq

/-- One attempted order:update emit of the status-update route. -/
structure UpdateEmit where
  room : Room
  event : String
  payload : OrderSnapshot
deriving Repr, DecidableEq

/-- The HTTP outcome of PUT /api/admin/orders/:id/status. -/
inductive UpdateResult where
  | badRequest (msg : String)
  | notFound
  | dbError (msg : String)
  | updated (order : Option OrderSnapshot)
deriving Repr, DecidableEq

/-- Whether the outcome is one of the 200 success responses. -/
def UpdateResult.isUpdated : UpdateResult → Bool
  | UpdateResult.updated _ => true
  | _ => false

/-- Everything observable from one run of the status-update handler. -/
structure UpdateOut where
  result : UpdateResult
  db : Db
  emits : List UpdateEmit
deriving Repr, DecidableEq

/-- The projection of a stored order onto the fetched columns. -/
def snapshotOf (o : OrderRow) : OrderSnapshot :=
  ⟨o.order_id, o.user_id, o.order_number, o.status, o.payment_status, o.total_amount⟩

/-- The per-row effect of the UPDATE statement of the status-update
handler: the row matching the order id gets the surviving fields
replaced; every other row is untouched. -/
def statusUpdateRow (sU pU : Option String) (orderId : Nat) (r : OrderRow) : OrderRow :=
  if r.order_id == orderId then
    { r with status := sU.getD r.status, payment_status := pU.getD r.payment_status }
  else r

/-- The orders table after the UPDATE of the status-update handler. -/
def updatedOrders (status payment_status : Option String) (orderId : Nat)
    (orders : List OrderRow) : List OrderRow :=
  orders.map
    (statusUpdateRow (validField status allowedStatus) (validField payment_status allowedPayment)
      orderId)

/-- Shallow embedding of the PUT /api/admin/orders/:id/status handler of
src/unnamed/part_004.  A proposed status or payment status outside its
allowed set is dropped; when no supplied field survives, the handler
responds 400 and writes nothing.  Otherwise it runs the UPDATE (which
can fail), responds 404 when no row matched, and on success re-fetches
the row; when the re-fetch fails it responds 200 without any emit, and
when it succeeds it emits order:update to the admins room and to the
per-user room of the owning user, then responds 200 with the row. -/
def updateOrderStatus (orderId : Nat) (status payment_status : Option String)
    (updateFail fetchFail : Bool) (db : Db) : UpdateOut :=
  if validField status allowedStatus = none ∧ validField payment_status allowedPayment = none then
    ⟨UpdateResult.badRequest "No valid fields to update", db, []⟩
  else if updateFail then
    ⟨UpdateResult.dbError "Failed to update order", db, []⟩
  else if (db.orders.filter (fun o => o.order_id == orderId)).length = 0 then
    ⟨UpdateResult.notFound, db, []⟩
  else if fetchFail then
    ⟨UpdateResult.updated none, ⟨updatedOrders status payment_status orderId db.orders, db.order_items⟩, []⟩
  else
    match (updatedOrders status payment_status orderId db.orders).find?
        (fun o => o.order_id == orderId) with
    | none =>
      ⟨UpdateResult.updated none, ⟨updatedOrders status payment_status orderId db.orders, db.order_items⟩, []⟩
    | some o =>
      ⟨UpdateResult.updated (some (snapshotOf o)),
       ⟨updatedOrders status payment_status orderId db.orders, db.order_items⟩,
       [⟨Room.admins, "order:update", snapshotOf o⟩,
        ⟨Room.userRoom o.user_id, "order:update", snapshotOf o⟩]⟩

/-- The identity carried by an authenticated socket connection. -/
structure SocketUser where
  userId : Int
  username : String
  role : String
deriving Repr, DecidableEq

/-- Room assignment of the connection handler in src/backend/server.js:
the admins room when role is admin, otherwise the customers room, and
always the per-user room. -/
def joinedRooms (u : SocketUser) : List Room :=
  (if u.role = "admin" then [Room.admins] else [Room.customers]) ++ [Room.userRoom u.userId]

/-- Room assignment of the connection handler in the older server
variant src/unnamed/part_004: the admins room when role is admin or
staff, otherwise the customers room, and the per-user room when the
userId is truthy. -/
def joinedRoomsLegacy (u : SocketUser) : List Room :=
  (if u.role = "admin" ∨ u.role = "staff" then [Room.admins] else [Room.customers]) ++
    (if u.userId ≠ 0 then [Room.userRoom u.userId] else [])

/-- A stored row of the menu_items table, restricted to the fields the
POST /api/menu handler writes. -/
structure MenuItemRow where
  item_id : Nat
  item_name : String
  price : Rat
  is_available : Bool
deriving Repr, DecidableEq

/-- The HTTP outcome of POST /api/menu. -/
inductive MenuResult where
  | dbError (msg : String)
  | created (itemId : Nat)
deriving Repr, DecidableEq

/-- Everything observable from one run of the add-menu-item handler. -/
structure MenuOut where
  result : MenuResult
  menu : List MenuItemRow
  emits : List SocketEmit
  logs : List String
deriving Repr, DecidableEq

/-- Shallow embedding of the POST /api/menu handler of
src/backend/server.js after validation: the INSERT can fail (500);
on success the handler emits menu:item:add to the admins room and then
to the customers room inside one try/catch — when the first emit throws
the second is never attempted and the failure is only logged — and it
responds 201 in every non-insert-failure case. -/
def addMenuItem (item_name : String) (price : Rat) (is_available : Bool)
    (insertFail emitFail : Bool) (menu : List MenuItemRow) : MenuOut :=
  if insertFail then ⟨MenuResult.dbError "Failed to add menu item", menu, [], []⟩
  else
    let newId := menu.length + 1
    let row : MenuItemRow := ⟨newId, item_name, price, is_available⟩
    ⟨MenuResult.created newId, menu ++ [row],
     if emitFail then [⟨Room.admins, "menu:item:add"⟩]
     else [⟨Room.admins, "menu:item:add"⟩, ⟨Room.customers, "menu:item:add"⟩],
     if emitFail then ["[SOCKET] Failed to emit menu:item:add"] else []⟩

/-- An entry of the menu cache held by the client components. -/
structure CachedMenuItem where
  item_id : Int
  item_name : String
deriving Repr, DecidableEq

/-- The menu:item:delete reconciler of
src/frontend/src/components/Menu.js: a falsy item_id is ignored,
otherwise the item is filtered out of the cached collection. -/
def handleMenuItemDelete (item_id : Int) (cache : List CachedMenuItem) :
    List CachedMenuItem :=
  if item_id = 0 then cache
  else cache.filter (fun it => it.item_id ≠ item_id)

/-- The menu:item:delete reconciler of
src/frontend/src/components/AdminDashboard.js: the item is filtered out
of the cached collection. -/
def adminMenuItemDelete (item_id : Int) (cache : List CachedMenuItem) :
    List CachedMenuItem :=
  cache.filter (fun it => it.item_id ≠ item_id)

/-- An entry of the order cache held by
src/frontend/src/components/Orders.js. -/
structure CachedOrder where
  order_id : Nat
  order_number : String
  status : String
  payment_status : String
deriving Repr, DecidableEq

/-- The order:update reconciler of
src/frontend/src/components/Orders.js: the cached order with the
matching id gets its status and payment_status replaced by the values
of the incoming message; every other entry is untouched. -/
def handleOrderUpdate (upd : OrderSnapshot) (cache : List CachedOrder) :
    List CachedOrder :=
  cache.map (fun o =>
    if o.order_id = upd.order_id then
      { o with status := upd.status, payment_status := upd.payment_status }
    else o)

example : validateOrder ⟨[⟨7, 2, 5⟩], some "cash", none, none, JsDate.absent, none⟩ 0 = none := by decide

example :
    (createOrder ⟨[⟨7, 2, 5⟩], some "cash", none, none, JsDate.absent, none⟩ 17 3 allOk emptyDb).result.isCreated
      = true := by decide

/-- The reduce over the items is the sum of the per-item products. -/
theorem foldl_items_eq_add_sum (items : List OrderItemReq) (a : Rat) :
    items.foldl (fun s i => s + i.price * i.quantity) a
      = a + (items.map fun i => i.price * i.quantity).sum := by
  induction items generalizing a with
  | nil => simp
  | cons i rest ih => simp [ih, add_assoc]

/-- The server-computed total is the sum of the per-item products. -/
theorem orderTotal_eq_sum (items : List OrderItemReq) :
    orderTotal items = (items.map fun i => i.price * i.quantity).sum := by
  simp [orderTotal, foldl_items_eq_add_sum]

/-- Claim C1: for every create-order invocation that passes input
validation, if any step of the transactional unit fails (connection,
begin, order-header insert, line-items insert, or commit), the store is
left exactly as before the call — no order row and no order_items rows
persist — and the caller receives a structured database-error response
instead of success. -/
theorem createOrder_rollback_on_failure
    (req : CreateOrderReq) (now : Int) (userId : Int) (f : DbFailure) (db : Db)
    (hval : validateOrder req now = none)
    (hfail : f.connFail = true ∨ f.beginFail = true ∨ f.insertOrderFail = true ∨
      f.insertItemsFail = true ∨ f.commitFail = true) :
    (∃ msg, (createOrder req now userId f db).result = CreateOrderResult.dbError msg) ∧
    (createOrder req now userId f db).db = db := by
  rcases f with ⟨c, b, i1, i2, cm, e⟩
  simp only at hfail
  cases c <;> cases b <;> cases i1 <;> cases i2 <;> cases cm <;>
    simp_all [createOrder, hval]

/-- Witness for C1: a concrete valid order whose commit step fails is
rejected with a database error and writes nothing. -/
theorem createOrder_rollback_on_failure_witness :
    (∃ msg, (createOrder ⟨[⟨7, 2, 5⟩], some "cash", none, none, JsDate.absent, none⟩
        17 3 ⟨false, false, false, false, true, false⟩ emptyDb).result
          = CreateOrderResult.dbError msg) ∧
    (createOrder ⟨[⟨7, 2, 5⟩], some "cash", none, none, JsDate.absent, none⟩
        17 3 ⟨false, false, false, false, true, false⟩ emptyDb).db = emptyDb :=
  createOrder_rollback_on_failure _ 17 3 _ emptyDb (by decide) (by decide)

/-- Claim C2: for every valid order submission that commits, exactly one
order row is appended; its persisted total equals the sum of the
persisted line-item subtotals, each of which is quantity times unit
price, and both equal the server-computed total over the submitted
tuples; and the output of the handler is unchanged when a
client-supplied total field in the request body is replaced by any
other value. -/
theorem createOrder_total_consistency
    (req : CreateOrderReq) (now : Int) (userId : Int) (db : Db) (tA tB : Option Rat)
    (hval : validateOrder req now = none) :
    (∃ o : OrderRow,
      (createOrder req now userId allOk db).db.orders = db.orders ++ [o] ∧
      o.total_amount =
        (((createOrder req now userId allOk db).db.order_items.drop db.order_items.length).map
          (fun r => r.subtotal)).sum ∧
      (∀ r ∈ (createOrder req now userId allOk db).db.order_items.drop db.order_items.length,
        r.subtotal = r.unit_price * r.quantity) ∧
      o.total_amount = orderTotal req.items) ∧
    createOrder { req with total := tA } now userId allOk db
      = createOrder { req with total := tB } now userId allOk db := by
  constructor
  · have hdb : (createOrder req now userId allOk db).db
        = ⟨db.orders ++ [committedOrderRow req now userId (db.orders.length + 1)],
           db.order_items ++ committedItemRows req.items (db.orders.length + 1)⟩ := by
      simp [createOrder, hval, allOk]
    refine ⟨committedOrderRow req now userId (db.orders.length + 1), ?_, ?_, ?_, rfl⟩
    · simp only [hdb]
    · simp only [hdb, List.drop_left]
      show orderTotal req.items = _
      rw [orderTotal_eq_sum]
      simp only [committedItemRows, List.map_map]
      rfl
    · simp only [hdb, List.drop_left, committedItemRows]
      intro r hr
      obtain ⟨i, _, rfl⟩ := List.mem_map.mp hr
      rfl
  · rcases req with ⟨its, pm, si, ot, sa, t⟩
    rfl

/-- Claim C6: every order:new notification the create-order handler
ever attempts targets the admins room, and a successful creation
attempts exactly one such notification — none toward the customers
broadcast room or any per-user room. -/
theorem orderNew_emit_targets
    (req : CreateOrderReq) (now : Int) (userId : Int) (f : DbFailure) (db : Db) :
    (∀ e ∈ (createOrder req now userId f db).emits,
      e.room = Room.admins ∧ e.event = "order:new") ∧
    ((createOrder req now userId f db).result.isCreated = true →
      (createOrder req now userId f db).emits = [⟨Room.admins, "order:new"⟩]) := by
  rcases f with ⟨c, b, i1, i2, cm, e⟩
  cases hv : validateOrder req now <;>
    cases c <;> cases b <;> cases i1 <;> cases i2 <;> cases cm <;>
      simp_all [createOrder, CreateOrderResult.isCreated]

/-- Witness for C6: a concrete successful creation attempts exactly the
one admins-room order:new notification. -/
theorem orderNew_emit_targets_witness :
    (createOrder ⟨[⟨7, 2, 5⟩], some "cash", none, none, JsDate.absent, none⟩
        17 3 allOk emptyDb).emits = [⟨Room.admins, "order:new"⟩] :=
  (orderNew_emit_targets ⟨[⟨7, 2, 5⟩], some "cash", none, none, JsDate.absent, none⟩
    17 3 allOk emptyDb).2 (by decide)

/-- Claim C8: for a write that commits, the HTTP response and the
stored state do not depend on whether the notification emit throws:
for the create-order handler the whole observable pair (result, store)
is the same for a throwing and a non-throwing emit and the response is
the 201 success, and likewise for the add-menu-item handler. -/
theorem publish_failure_swallowed :
    (∀ (req : CreateOrderReq) (now : Int) (userId : Int) (db : Db)
       (c b i1 i2 cm e1 e2 : Bool),
      (createOrder req now userId ⟨c, b, i1, i2, cm, e1⟩ db).result
        = (createOrder req now userId ⟨c, b, i1, i2, cm, e2⟩ db).result ∧
      (createOrder req now userId ⟨c, b, i1, i2, cm, e1⟩ db).db
        = (createOrder req now userId ⟨c, b, i1, i2, cm, e2⟩ db).db) ∧
    (∀ (req : CreateOrderReq) (now : Int) (userId : Int) (db : Db) (e : Bool),
      validateOrder req now = none →
      (createOrder req now userId ⟨false, false, false, false, false, e⟩ db).result.isCreated
        = true) ∧
    (∀ (item_name : String) (price : Rat) (is_available : Bool)
       (menu : List MenuItemRow) (e : Bool),
      (addMenuItem item_name price is_available false e menu).result
        = MenuResult.created (menu.length + 1) ∧
      (addMenuItem item_name price is_available false e menu).menu
        = menu ++ [⟨menu.length + 1, item_name, price, is_available⟩]) := by
  refine ⟨?_, ?_, ?_⟩
  · intro req now userId db c b i1 i2 cm e1 e2
    cases hv : validateOrder req now <;>
      cases c <;> cases b <;> cases i1 <;> cases i2 <;> cases cm <;>
        simp_all [createOrder]
  · intro req now userId db e hval
    simp [createOrder, hval, CreateOrderResult.isCreated]
  · intro item_name price is_available menu e
    simp [addMenuItem]

/-- Witness for C8: a concrete valid order still reports success when
the order:new emit throws, and with the same store as when it does not. -/
theorem publish_failure_swallowed_witness :
    ((createOrder ⟨[⟨7, 2, 5⟩], some "cash", none, none, JsDate.absent, none⟩
        17 3 ⟨false, false, false, false, false, true⟩ emptyDb).result
      = (createOrder ⟨[⟨7, 2, 5⟩], some "cash", none, none, JsDate.absent, none⟩
        17 3 ⟨false, false, false, false, false, false⟩ emptyDb).result ∧
      (createOrder ⟨[⟨7, 2, 5⟩], some "cash", none, none, JsDate.absent, none⟩
        17 3 ⟨false, false, false, false, false, true⟩ emptyDb).db
      = (createOrder ⟨[⟨7, 2, 5⟩], some "cash", none, none, JsDate.absent, none⟩
        17 3 ⟨false, false, false, false, false, false⟩ emptyDb).db) ∧
    (createOrder ⟨[⟨7, 2, 5⟩], some "cash", none, none, JsDate.absent, none⟩
        17 3 ⟨false, false, false, false, false, true⟩ emptyDb).result.isCreated = true :=
  ⟨publish_failure_swallowed.1 ⟨[⟨7, 2, 5⟩], some "cash", none, none, JsDate.absent, none⟩
      17 3 emptyDb false false false false false true false,
   publish_failure_swallowed.2.1 ⟨[⟨7, 2, 5⟩], some "cash", none, none, JsDate.absent, none⟩
      17 3 emptyDb true (by decide)⟩

/-- Counterexample for C4: a submission whose only item has item id 0
(not a positive integer) passes the input validation of the handler
— the request does not fail with a validation error, and a line-item
row is written when the transaction steps succeed. -/
theorem itemId_validation_counterexample :
    validateOrder ⟨[⟨0, 1, 5⟩], some "cash", none, none, JsDate.absent, none⟩ 1000 = none ∧
    (createOrder ⟨[⟨0, 1, 5⟩], some "cash", none, none, JsDate.absent, none⟩
        1000 42 allOk emptyDb).result.isCreated = true ∧
    (createOrder ⟨[⟨0, 1, 5⟩], some "cash", none, none, JsDate.absent, none⟩
        1000 42 allOk emptyDb).db.order_items.length = 1 := by
  refine ⟨by decide, by decide, by decide⟩

/-- Claim C4 as amended: the per-item validation accepts an item
exactly when its id and quantity are integers, its price is truthy and
its quantity is at least 1 — item-id positivity is not checked, so a
zero or negative integer item id passes — and whenever validation does
fail, the handler returns that validation error and writes nothing. -/
theorem itemId_validation_amended :
    (∀ items : List OrderItemReq,
      validateItemsLoop items = none ↔
        ∀ i ∈ items, numberIsInteger i.item_id = true ∧ numberIsInteger i.quantity = true ∧
          i.price ≠ 0 ∧ 1 ≤ i.quantity) ∧
    (∀ (req : CreateOrderReq) (now : Int) (userId : Int) (f : DbFailure) (db : Db) (msg : String),
      validateOrder req now = some msg →
      (createOrder req now userId f db).result = CreateOrderResult.validationError msg ∧
      (createOrder req now userId f db).db = db) := by
  constructor
  · intro items
    induction items with
    | nil => simp [validateItemsLoop]
    | cons i rest ih =>
      by_cases h1 : ¬ numberIsInteger i.item_id ∨ ¬ numberIsInteger i.quantity ∨ i.price = 0
      · simp only [validateItemsLoop, if_pos h1]
        constructor
        · intro h
          exact absurd h (by simp)
        · intro h
          obtain ⟨ha, hb, hc, _⟩ := h i (by simp)
          rcases h1 with h1 | h1 | h1 <;> simp_all
      · by_cases h2 : i.quantity < 1
        · simp only [validateItemsLoop, if_neg h1, if_pos h2]
          constructor
          · intro h
            exact absurd h (by simp)
          · intro h
            obtain ⟨_, _, _, hq⟩ := h i (by simp)
            exact absurd h2 (not_lt.mpr hq)
        · simp only [validateItemsLoop, if_neg h1, if_neg h2, ih]
          push_neg at h1 h2
          constructor
          · intro h j hj
            rcases List.mem_cons.mp hj with rfl | hj
            · exact ⟨by simpa using h1.1, by simpa using h1.2.1, h1.2.2, h2⟩
            · exact h j hj
          · intro h j hj
            exact h j (List.mem_cons_of_mem i hj)
  · intro req now userId f db msg hval
    constructor <;> simp [createOrder, hval]

/-- Witness for C4 as amended: a concrete submission with an empty item
list is rejected with the corresponding validation error and leaves the
store untouched, and the characterization of the item loop holds on a
concrete item list containing id 0. -/
theorem itemId_validation_amended_witness :
    ((createOrder ⟨[], some "cash", none, none, JsDate.absent, none⟩ 5 1 allOk emptyDb).result
      = CreateOrderResult.validationError "Order must contain at least one item" ∧
     (createOrder ⟨[], some "cash", none, none, JsDate.absent, none⟩ 5 1 allOk emptyDb).db
      = emptyDb) ∧
    (validateItemsLoop [⟨0, 1, 5⟩] = none ↔
      ∀ i ∈ [(⟨0, 1, 5⟩ : OrderItemReq)], numberIsInteger i.item_id = true ∧
        numberIsInteger i.quantity = true ∧ i.price ≠ 0 ∧ 1 ≤ i.quantity) :=
  ⟨itemId_validation_amended.2 ⟨[], some "cash", none, none, JsDate.absent, none⟩
      5 1 allOk emptyDb "Order must contain at least one item" (by decide),
   itemId_validation_amended.1 [⟨0, 1, 5⟩]⟩

/-- Witness for C2: a concrete valid one-item order at two different
client-supplied totals. -/
theorem createOrder_total_consistency_witness :
    (∃ o : OrderRow,
      (createOrder ⟨[⟨7, 2, 5⟩], some "cash", none, none, JsDate.absent, none⟩
          17 3 allOk emptyDb).db.orders = emptyDb.orders ++ [o] ∧
      o.total_amount =
        (((createOrder ⟨[⟨7, 2, 5⟩], some "cash", none, none, JsDate.absent, none⟩
            17 3 allOk emptyDb).db.order_items.drop emptyDb.order_items.length).map
          (fun r => r.subtotal)).sum ∧
      (∀ r ∈ (createOrder ⟨[⟨7, 2, 5⟩], some "cash", none, none, JsDate.absent, none⟩
          17 3 allOk emptyDb).db.order_items.drop emptyDb.order_items.length,
        r.subtotal = r.unit_price * r.quantity) ∧
      o.total_amount = orderTotal [⟨7, 2, 5⟩]) ∧
    createOrder ⟨[⟨7, 2, 5⟩], some "cash", none, none, JsDate.absent, some 99⟩ 17 3 allOk emptyDb
      = createOrder ⟨[⟨7, 2, 5⟩], some "cash", none, none, JsDate.absent, none⟩ 17 3 allOk emptyDb :=
  createOrder_total_consistency ⟨[⟨7, 2, 5⟩], some "cash", none, none, JsDate.absent, none⟩
    17 3 emptyDb (some 99) none (by decide)

/-- A member of the allowed status set is not the empty string. -/
theorem mem_allowedStatus_ne_empty {s : String} (hs : s ∈ allowedStatus) : s ≠ "" := by
  rintro rfl
  revert hs
  decide

/-- A member of the allowed payment set is not the empty string. -/
theorem mem_allowedPayment_ne_empty {s : String} (hs : s ∈ allowedPayment) : s ≠ "" := by
  rintro rfl
  revert hs
  decide

/-- A truthy member of the allowed set survives the field filter. -/
theorem validField_of_mem {s : String} {allowed : List String}
    (hs : s ∈ allowed) (hne : s ≠ "") : validField (some s) allowed = some s := by
  simp [validField, hne, hs]

/-- A value outside the allowed set is dropped by the field filter. -/
theorem validField_of_not_mem {s : String} {allowed : List String}
    (hs : s ∉ allowed) : validField (some s) allowed = none := by
  simp [validField]
  intro _
  exact fun hmem => absurd hmem hs

/-- statusUpdateRow never changes the order id of a row. -/
theorem statusUpdateRow_order_id (sU pU : Option String) (oid : Nat) (r : OrderRow) :
    (statusUpdateRow sU pU oid r).order_id = r.order_id := by
  unfold statusUpdateRow
  split <;> rfl

/-- When at least one supplied field survives the filter and some row
matches the id, the status-update handler (with a working store)
responds with a 200, rewrites the orders table by statusUpdateRow, and
leaves the order_items table alone. -/
theorem updateOrderStatus_writes
    (oid : Nat) (st pay : Option String) (ff : Bool) (db : Db)
    (hvalid : ¬(validField st allowedStatus = none ∧ validField pay allowedPayment = none))
    (hex : (db.orders.filter (fun o => o.order_id == oid)).length ≠ 0) :
    (updateOrderStatus oid st pay false ff db).result.isUpdated = true ∧
    (updateOrderStatus oid st pay false ff db).db.orders = updatedOrders st pay oid db.orders ∧
    (updateOrderStatus oid st pay false ff db).db.order_items = db.order_items := by
  unfold updateOrderStatus
  rw [if_neg hvalid, if_neg (show ¬(false = true) by simp), if_neg hex]
  cases ff with
  | true =>
    rw [if_pos (show (true = true) from rfl)]
    exact ⟨rfl, rfl, rfl⟩
  | false =>
    rw [if_neg (show ¬(false = true) by simp)]
    cases hfind : (updatedOrders st pay oid db.orders).find? (fun o => o.order_id == oid) with
    | none => exact ⟨rfl, rfl, rfl⟩
    | some o => exact ⟨rfl, rfl, rfl⟩

/-- When at least one supplied field survives the filter, some row
matches the id, and neither the UPDATE nor the re-fetch fails, the
status-update handler finds an updated row with the matching id,
carrying the surviving new field values and the user id of an original
matching row, responds 200 with its snapshot and emits order:update for
it to the admins room and to the per-user room of its owner. -/
theorem updateOrderStatus_emits_shape
    (oid : Nat) (st pay : Option String) (db : Db)
    (hvalid : ¬(validField st allowedStatus = none ∧ validField pay allowedPayment = none))
    (hex : (db.orders.filter (fun o => o.order_id == oid)).length ≠ 0) :
    ∃ o : OrderRow,
      o.order_id = oid ∧
      (∃ orig ∈ db.orders, orig.order_id = oid ∧ o.user_id = orig.user_id) ∧
      (∀ s, validField st allowedStatus = some s → o.status = s) ∧
      (∀ p, validField pay allowedPayment = some p → o.payment_status = p) ∧
      (updateOrderStatus oid st pay false false db).result
        = UpdateResult.updated (some (snapshotOf o)) ∧
      (updateOrderStatus oid st pay false false db).emits
        = [⟨Room.admins, "order:update", snapshotOf o⟩,
           ⟨Room.userRoom o.user_id, "order:update", snapshotOf o⟩] := by
  have hne : db.orders.filter (fun o => o.order_id == oid) ≠ [] :=
    fun hnil => hex (by rw [hnil]; rfl)
  obtain ⟨x, hxf⟩ := List.exists_mem_of_ne_nil _ hne
  have hx : x ∈ db.orders := (List.mem_filter.mp hxf).1
  have hxid : (x.order_id == oid) = true := (List.mem_filter.mp hxf).2
  have hmemfx :
      statusUpdateRow (validField st allowedStatus) (validField pay allowedPayment) oid x
        ∈ updatedOrders st pay oid db.orders :=
    List.mem_map_of_mem _ hx
  have hfxid :
      ((statusUpdateRow (validField st allowedStatus) (validField pay allowedPayment) oid x).order_id
        == oid) = true := by
    rw [statusUpdateRow_order_id]
    exact hxid
  have hsome :
      ((updatedOrders st pay oid db.orders).find? (fun o => o.order_id == oid)).isSome := by
    rw [List.find?_isSome]
    exact ⟨_, hmemfx, hfxid⟩
  obtain ⟨o, ho⟩ := Option.isSome_iff_exists.mp hsome
  have hoid : (o.order_id == oid) = true := by
    have h := List.find?_some ho
    simpa using h
  have homem := List.mem_of_find?_eq_some ho
  obtain ⟨orig, horig, hfo⟩ := List.mem_map.mp homem
  have horigid : (orig.order_id == oid) = true := by
    have h := statusUpdateRow_order_id (validField st allowedStatus)
      (validField pay allowedPayment) oid orig
    rw [hfo] at h
    rw [← h]
    exact hoid
  have hfo' : o
      = { orig with
          status := (validField st allowedStatus).getD orig.status,
          payment_status := (validField pay allowedPayment).getD orig.payment_status } := by
    rw [← hfo]
    simp [statusUpdateRow, horigid]
  have hout : updateOrderStatus oid st pay false false db
      = ⟨UpdateResult.updated (some (snapshotOf o)),
         ⟨updatedOrders st pay oid db.orders, db.order_items⟩,
         [⟨Room.admins, "order:update", snapshotOf o⟩,
          ⟨Room.userRoom o.user_id, "order:update", snapshotOf o⟩]⟩ := by
    unfold updateOrderStatus
    rw [if_neg hvalid, if_neg (show ¬(false = true) by simp), if_neg hex,
      if_neg (show ¬(false = true) by simp), ho]
  refine ⟨o, by simpa using hoid,
    ⟨orig, horig, by simpa using horigid, by rw [hfo']⟩, ?_, ?_, ?_, ?_⟩
  · intro s hsv
    rw [hfo', hsv]
    rfl
  · intro p hpv
    rw [hfo', hpv]
    rfl
  · rw [hout]
  · rw [hout]

/-- Counterexample for C3: an order whose persisted status is the
terminal value completed is moved back to pending by the status-update
handler — the request is not rejected and the persisted status changes. -/
theorem statusTransition_counterexample :
    (updateOrderStatus 1 (some "pending") none false false
        ⟨[⟨1, 42, "ORD1", 10, "cash", none, "completed", "paid", "asap", none⟩], []⟩).result.isUpdated
      = true ∧
    (updateOrderStatus 1 (some "pending") none false false
        ⟨[⟨1, 42, "ORD1", 10, "cash", none, "completed", "paid", "asap", none⟩], []⟩).db.orders.map
        (fun o => o.status) = ["pending"] := by
  refine ⟨by decide, by decide⟩

/-- Claim C3 as amended: the status-update route checks a proposed
status only for membership in the enumerated set, never against the
current status, so any enumerated value — including a transition such
as completed to pending — is accepted for any existing order and the
matching rows take the proposed status. -/
theorem statusTransition_amended
    (db : Db) (oid : Nat) (s : String)
    (hs : s ∈ allowedStatus)
    (hex : (db.orders.filter (fun o => o.order_id == oid)).length ≠ 0) :
    (updateOrderStatus oid (some s) none false false db).result.isUpdated = true ∧
    ∀ o ∈ (updateOrderStatus oid (some s) none false false db).db.orders,
      o.order_id = oid → o.status = s := by
  have hv : validField (some s) allowedStatus = some s :=
    validField_of_mem hs (mem_allowedStatus_ne_empty hs)
  have hvalid : ¬(validField (some s) allowedStatus = none ∧
      validField none allowedPayment = none) := by
    rw [hv]
    rintro ⟨h, -⟩
    exact Option.noConfusion h
  obtain ⟨hres, horders, -⟩ := updateOrderStatus_writes oid (some s) none false db hvalid hex
  refine ⟨hres, ?_⟩
  intro o hmem hid
  rw [horders] at hmem
  obtain ⟨orig, -, rfl⟩ := List.mem_map.mp hmem
  by_cases h : (orig.order_id == oid) = true
  · simp [statusUpdateRow, h, hv]
  · rw [statusUpdateRow_order_id] at hid
    exact absurd (by simpa using hid) (by simpa using h)

/-- Witness for C3 as amended: a concrete existing pending order is
moved to confirmed. -/
theorem statusTransition_amended_witness :
    (updateOrderStatus 1 (some "confirmed") none false false
        ⟨[⟨1, 42, "ORD1", 10, "cash", none, "pending", "pending", "asap", none⟩], []⟩).result.isUpdated
      = true ∧
    ∀ o ∈ (updateOrderStatus 1 (some "confirmed") none false false
        ⟨[⟨1, 42, "ORD1", 10, "cash", none, "pending", "pending", "asap", none⟩], []⟩).db.orders,
      o.order_id = 1 → o.status = "confirmed" :=
  statusTransition_amended
    ⟨[⟨1, 42, "ORD1", 10, "cash", none, "pending", "pending", "asap", none⟩], []⟩
    1 "confirmed" (by decide) (by decide)

/-- Claim C10: in the status-update route a proposed status or
payment-status value outside its enumerated set is silently dropped
rather than rejected — when the other supplied field is valid the
update proceeds on that field alone, leaving every persisted status
unchanged while the matching rows take the valid payment value — and
when no supplied field is valid the request fails with the 400
validation error and nothing is written. -/
theorem invalid_field_silently_dropped :
    (∀ (db : Db) (oid : Nat) (s p : String),
      s ∉ allowedStatus → p ∈ allowedPayment →
      (db.orders.filter (fun o => o.order_id == oid)).length ≠ 0 →
      (updateOrderStatus oid (some s) (some p) false false db).result.isUpdated = true ∧
      (updateOrderStatus oid (some s) (some p) false false db).db.orders.map (fun o => o.status)
        = db.orders.map (fun o => o.status) ∧
      (∀ o ∈ (updateOrderStatus oid (some s) (some p) false false db).db.orders,
        o.order_id = oid → o.payment_status = p)) ∧
    (∀ (db : Db) (oid : Nat) (st pay : Option String) (uf ff : Bool),
      validField st allowedStatus = none → validField pay allowedPayment = none →
      updateOrderStatus oid st pay uf ff db
        = ⟨UpdateResult.badRequest "No valid fields to update", db, []⟩) := by
  constructor
  · intro db oid s p hs hp hex
    have hvS : validField (some s) allowedStatus = none := validField_of_not_mem hs
    have hvP : validField (some p) allowedPayment = some p :=
      validField_of_mem hp (mem_allowedPayment_ne_empty hp)
    have hvalid : ¬(validField (some s) allowedStatus = none ∧
        validField (some p) allowedPayment = none) := by
      rw [hvP]
      rintro ⟨-, h⟩
      exact Option.noConfusion h
    obtain ⟨hres, horders, -⟩ :=
      updateOrderStatus_writes oid (some s) (some p) false db hvalid hex
    refine ⟨hres, ?_, ?_⟩
    · rw [horders]
      unfold updatedOrders
      rw [List.map_map]
      have hfun : ((fun o : OrderRow => o.status) ∘
          statusUpdateRow (validField (some s) allowedStatus)
            (validField (some p) allowedPayment) oid) = fun o : OrderRow => o.status := by
        funext r
        by_cases h : (r.order_id == oid) = true <;> simp [statusUpdateRow, h, hvS]
      rw [hfun]
    · intro o hmem hid
      rw [horders] at hmem
      obtain ⟨orig, -, rfl⟩ := List.mem_map.mp hmem
      by_cases h : (orig.order_id == oid) = true
      · simp [statusUpdateRow, h, hvP]
      · rw [statusUpdateRow_order_id] at hid
        exact absurd (by simpa using hid) (by simpa using h)
  · intro db oid st pay uf ff h1 h2
    unfold updateOrderStatus
    rw [if_pos ⟨h1, h2⟩]

/-- Witness for C10: on a concrete existing order, a bogus status
together with a valid payment status still updates the payment status
and leaves the status untouched, and a request whose both fields are
filtered out is rejected with the 400 error and no write. -/
theorem invalid_field_silently_dropped_witness :
    ((updateOrderStatus 1 (some "bogus") (some "paid") false false
        ⟨[⟨1, 42, "ORD1", 10, "cash", none, "pending", "pending", "asap", none⟩], []⟩).result.isUpdated
        = true ∧
      (updateOrderStatus 1 (some "bogus") (some "paid") false false
        ⟨[⟨1, 42, "ORD1", 10, "cash", none, "pending", "pending", "asap", none⟩], []⟩).db.orders.map
          (fun o => o.status)
        = ([⟨1, 42, "ORD1", 10, "cash", none, "pending", "pending", "asap", none⟩] :
            List OrderRow).map (fun o => o.status) ∧
      (∀ o ∈ (updateOrderStatus 1 (some "bogus") (some "paid") false false
          ⟨[⟨1, 42, "ORD1", 10, "cash", none, "pending", "pending", "asap", none⟩], []⟩).db.orders,
        o.order_id = 1 → o.payment_status = "paid")) ∧
    updateOrderStatus 7 (some "bogus") (some "") true false emptyDb
      = ⟨UpdateResult.badRequest "No valid fields to update", emptyDb, []⟩ :=
  ⟨invalid_field_silently_dropped.1
      ⟨[⟨1, 42, "ORD1", 10, "cash", none, "pending", "pending", "asap", none⟩], []⟩
      1 "bogus" "paid" (by decide) (by decide) (by decide),
   invalid_field_silently_dropped.2 emptyDb 7 (some "bogus") (some "") true false
      (by decide) (by decide)⟩

/-- Counterexample for C7: a status and payment update of an existing
order succeeds and persists — the response is a 200 — yet when the
post-update re-fetch fails no order-update notification is attempted at
all, toward either channel. -/
theorem orderUpdate_notification_counterexample :
    (updateOrderStatus 1 (some "confirmed") (some "paid") false true
        ⟨[⟨1, 42, "ORD1", 10, "cash", none, "pending", "pending", "asap", none⟩], []⟩).result.isUpdated
      = true ∧
    (updateOrderStatus 1 (some "confirmed") (some "paid") false true
        ⟨[⟨1, 42, "ORD1", 10, "cash", none, "pending", "pending", "asap", none⟩], []⟩).db.orders.map
        (fun o => o.status) = ["confirmed"] ∧
    (updateOrderStatus 1 (some "confirmed") (some "paid") false true
        ⟨[⟨1, 42, "ORD1", 10, "cash", none, "pending", "pending", "asap", none⟩], []⟩).emits
      = [] := by
  refine ⟨by decide, by decide, by decide⟩

/-- Claim C7 as amended: when the post-update re-fetch succeeds, the
status-update handler emits order:update for the refreshed row to the
admins room and to the per-user room of the owning user, with the new
status and payment status; and feeding that payload to the customer
order reconciler sets the cached copy of that order to the new status
and payment status. -/
theorem orderUpdate_notification_amended
    (db : Db) (oid : Nat) (s p : String) (cache : List CachedOrder)
    (hs : s ∈ allowedStatus) (hp : p ∈ allowedPayment)
    (hex : (db.orders.filter (fun o => o.order_id == oid)).length ≠ 0) :
    ∃ snap : OrderSnapshot,
      (updateOrderStatus oid (some s) (some p) false false db).emits
        = [⟨Room.admins, "order:update", snap⟩,
           ⟨Room.userRoom snap.user_id, "order:update", snap⟩] ∧
      snap.order_id = oid ∧ snap.status = s ∧ snap.payment_status = p ∧
      (∃ orig ∈ db.orders, orig.order_id = oid ∧ snap.user_id = orig.user_id) ∧
      (∀ c ∈ handleOrderUpdate snap cache,
        c.order_id = oid → c.status = s ∧ c.payment_status = p) := by
  have hvS : validField (some s) allowedStatus = some s :=
    validField_of_mem hs (mem_allowedStatus_ne_empty hs)
  have hvP : validField (some p) allowedPayment = some p :=
    validField_of_mem hp (mem_allowedPayment_ne_empty hp)
  have hvalid : ¬(validField (some s) allowedStatus = none ∧
      validField (some p) allowedPayment = none) := by
    rw [hvS]
    rintro ⟨h, -⟩
    exact Option.noConfusion h
  obtain ⟨o, hoid, ⟨orig, horig, horigid, houser⟩, hst, hpa, -, hemits⟩ :=
    updateOrderStatus_emits_shape oid (some s) (some p) db hvalid hex
  have hst' : o.status = s := hst s hvS
  have hpa' : o.payment_status = p := hpa p hvP
  refine ⟨snapshotOf o, ?_, hoid, hst', hpa', ⟨orig, horig, horigid, houser⟩, ?_⟩
  · rw [hemits]
    rfl
  · intro c hmem hcid
    unfold handleOrderUpdate at hmem
    obtain ⟨c0, -, rfl⟩ := List.mem_map.mp hmem
    by_cases h : c0.order_id = (snapshotOf o).order_id
    · rw [if_pos h]
      exact ⟨hst', hpa'⟩
    · rw [if_neg h] at hcid ⊢
      exact absurd (hcid.trans hoid.symm) h

/-- Witness for C7 as amended: a concrete update of a pending order to
confirmed and paid notifies both rooms and reconciles the cached copy. -/
theorem orderUpdate_notification_amended_witness :
    ∃ snap : OrderSnapshot,
      (updateOrderStatus 1 (some "confirmed") (some "paid") false false
          ⟨[⟨1, 42, "ORD1", 10, "cash", none, "pending", "pending", "asap", none⟩], []⟩).emits
        = [⟨Room.admins, "order:update", snap⟩,
           ⟨Room.userRoom snap.user_id, "order:update", snap⟩] ∧
      snap.order_id = 1 ∧ snap.status = "confirmed" ∧ snap.payment_status = "paid" ∧
      (∃ orig ∈ ([⟨1, 42, "ORD1", 10, "cash", none, "pending", "pending", "asap", none⟩] :
          List OrderRow), orig.order_id = 1 ∧ snap.user_id = orig.user_id) ∧
      (∀ c ∈ handleOrderUpdate snap [⟨1, "ORD1", "pending", "pending"⟩],
        c.order_id = 1 → c.status = "confirmed" ∧ c.payment_status = "paid") :=
  orderUpdate_notification_amended
    ⟨[⟨1, 42, "ORD1", 10, "cash", none, "pending", "pending", "asap", none⟩], []⟩
    1 "confirmed" "paid" [⟨1, "ORD1", "pending", "pending"⟩]
    (by decide) (by decide) (by decide)

/-- Counterexample for C5: in the connection handler of
src/backend/server.js a connection whose role is staff does not join
the admins room and does join the customers broadcast room. -/
theorem roomJoin_counterexample :
    Room.admins ∉ joinedRooms ⟨7, "sam", "staff"⟩ ∧
    Room.customers ∈ joinedRooms ⟨7, "sam", "staff"⟩ := by
  refine ⟨by decide, by decide⟩

/-- Claim C5 as amended: in the current server the staff channel
membership is granted exactly to role admin, every other role —
including staff — lands in the customer broadcast room, and every
connection additionally joins its per-user room; only the older server
variant of src/unnamed/part_004 also grants the staff channel to role
staff. -/
theorem roomJoin_membership (u : SocketUser) :
    (Room.admins ∈ joinedRooms u ↔ u.role = "admin") ∧
    (Room.customers ∈ joinedRooms u ↔ u.role ≠ "admin") ∧
    Room.userRoom u.userId ∈ joinedRooms u ∧
    (Room.admins ∈ joinedRoomsLegacy u ↔ (u.role = "admin" ∨ u.role = "staff")) := by
  unfold joinedRooms joinedRoomsLegacy
  by_cases h1 : u.role = "admin"
  · by_cases h3 : u.userId = 0 <;> simp [h1, h3]
  · by_cases h2 : u.role = "staff" <;> by_cases h3 : u.userId = 0 <;> simp [h1, h2, h3]

/-- Claim C9: the catalog-item-deleted merge of both client reconcilers
is idempotent — applying the same delete twice leaves the cache exactly
as applying it once — and a delete whose item id is absent from the
cache leaves the cache unchanged. -/
theorem deleteMerge_idempotent :
    (∀ (i : Int) (cache : List CachedMenuItem),
      handleMenuItemDelete i (handleMenuItemDelete i cache) = handleMenuItemDelete i cache ∧
      adminMenuItemDelete i (adminMenuItemDelete i cache) = adminMenuItemDelete i cache) ∧
    (∀ (i : Int) (cache : List CachedMenuItem),
      (∀ it ∈ cache, it.item_id ≠ i) →
      handleMenuItemDelete i cache = cache ∧ adminMenuItemDelete i cache = cache) := by
  constructor
  · intro i cache
    unfold handleMenuItemDelete adminMenuItemDelete
    by_cases h : i = 0
    · simp [h, List.filter_filter]
    · simp [h, List.filter_filter]
  · intro i cache hmem
    unfold handleMenuItemDelete adminMenuItemDelete
    have hself : cache.filter (fun it => it.item_id ≠ i) = cache := by
      rw [List.filter_eq_self]
      intro a ha
      simpa using hmem a ha
    constructor
    · by_cases h : i = 0
      · rw [if_pos h]
      · rw [if_neg h]
        exact hself
    · exact hself

/-- Witness for C9: deleting an id that is not cached leaves a concrete
cache unchanged in both reconcilers. -/
theorem deleteMerge_idempotent_witness :
    handleMenuItemDelete 5 [⟨3, "burger"⟩] = [⟨3, "burger"⟩] ∧
    adminMenuItemDelete 5 [⟨3, "burger"⟩] = [⟨3, "burger"⟩] :=
  deleteMerge_idempotent.2 5 [⟨3, "burger"⟩] (by decide)

end GrabNGo
